import Mathlib

/-! Verification of the Vigiles client library's request-construction layer.

Shallow embedding of the `timesys.vigiles` resource modules
(`cves.py`, `folders.py`, `groups.py`, `manifests.py`, `reports.py`),
the file decoder (`core/utils.py`), and the scan-runner summary formatting
(`vigiles_cli/scan/runner.py`).

Each library function is modelled as a pure Lean function from its
parameters (plus the API-client configuration, `Llapi`) to either an
error (Python `raise`) or the request it dispatches to the API client
(verb, resource path, parameter mapping).  Warnings emitted through the
logger are modelled as a list of `LogEvent` values.
-/

/-! Section: Python string semantics helpers -/

/-- Python truthiness of an optional string (`None` and `""` are falsy). -/
def optTruthy : Option String → Bool
  | none => false
  | some s => !s.isEmpty

/-- Python truthiness of an optional list (`None` and `[]` are falsy). -/
def listTruthy : Option (List String) → Bool
  | none => false
  | some l => !l.isEmpty

/-- Python `a or b` over optional strings: `b` when `a` is falsy. -/
def pyOr (a b : Option String) : Option String :=
  if optTruthy a then a else b

/-- The value of an optional string known to be present (default `""`). -/
def optGet : Option String → String
  | none => ""
  | some s => s

/-- Python `str.lower` (ASCII case folding suffices for the inputs used). -/
def pyLower (s : String) : String := String.mk (s.toList.map Char.toLower)

/-- Helper for `pySplitChar`: split a character list at a separator. -/
def splitCharAux (sep : Char) : List Char → List (List Char)
  | [] => [[]]
  | x :: xs =>
    match splitCharAux sep xs with
    | [] => [[]]
    | h :: t => if x = sep then [] :: h :: t else (x :: h) :: t

/-- Python `s.split(sep)` for a one-character separator
(`"".split(",") == [""]`, empty fields preserved). -/
def pySplitChar (sep : Char) (s : String) : List String :=
  (splitCharAux sep s.toList).map String.mk

/-- Python `sep.join(parts)`. -/
def pyJoin (sep : String) : List String → String
  | [] => ""
  | [x] => x
  | x :: xs => x ++ sep ++ pyJoin sep xs

/-- Characters removed by Python `str.strip()`. -/
def pyIsSpace (c : Char) : Bool :=
  c = ' ' || c = '\t' || c = '\n' || c = '\r' || c = '\x0b' || c = '\x0c'

/-- Python `str.strip()`: drop leading and trailing whitespace. -/
def pyStrip (s : String) : String :=
  String.mk (((s.toList.dropWhile pyIsSpace).reverse.dropWhile pyIsSpace).reverse)

/-- Python `s.startswith(pre)`. -/
def pyStartswith (s pre : String) : Bool :=
  List.isPrefixOf pre.toList s.toList

/-- Python `s[:n]`. -/
def pyTake (s : String) (n : Nat) : String := String.mk (s.toList.take n)

/-- Python `%s` conversion of an optional string (`None` prints as "None"). -/
def pyStrOfOpt : Option String → String
  | none => "None"
  | some s => s

/-- Helper for `pyRfind`: scan keeping the last index where `c` occurs. -/
def pyRfindGo (c : Char) : List Char → Int → Int → Int
  | [], _, best => best
  | x :: xs, i, best => pyRfindGo c xs (i + 1) (if x = c then i else best)

/-- Python `str.rfind`: index of last occurrence of `c`, `-1` if absent. -/
def pyRfind (l : List Char) (c : Char) : Int := pyRfindGo c l 0 (-1)

/-- Models `os.path.splitext` (posixpath): split off the extension at the last dot
of the basename, unless the basename consists only of leading dots. -/
def pySplitext (p : String) : String × String :=
  let l := p.toList
  let sepIndex := pyRfind l '/'
  let dotIndex := pyRfind l '.'
  if sepIndex < dotIndex then
    let between := (l.drop (sepIndex + 1).toNat).take (dotIndex - sepIndex - 1).toNat
    if between.any (fun c => c ≠ '.') then
      (String.mk (l.take dotIndex.toNat), String.mk (l.drop dotIndex.toNat))
    else (p, "")
  else (p, "")

/-! Section: Request model -/

/-- A value placed in a request's parameter mapping. -/
inductive RVal where
  | str (s : String)
  | bool (b : Bool)
  | strList (l : List String)
  deriving DecidableEq, Repr

/-- A request parameter mapping (Python dict in insertion order). -/
abbrev RData := List (String × RVal)

/-- HTTP verb methods exposed by the API client collaborator. -/
inductive Verb where
  | GET | POST | PUT | PATCH | DELETE
  deriving DecidableEq, Repr

/-- A request handed to the API client: verb, resource path, parameter
mapping, and whether a JSON-parsed response is requested. -/
structure Request where
  verb : Verb
  resource : String
  data : RData
  json : Bool := true
  deriving DecidableEq, Repr

/-- Read-only configuration of the API client collaborator (`timesys.llapi`). -/
structure Llapi where
  group_token : Option String := none
  folder_token : Option String := none
  product_token : Option String := none
  url : String := ""
  dry_run : Bool := false

/-- Diagnostic events emitted through the logger (warnings / infos). -/
inductive LogEvent where
  | invalidEcosystems (skipped : List String)
  | privateWorkspaceDefault
  | foldersIgnored
  | exportSaved (path : String)
  | exportSaveError (msg : String)
  deriving DecidableEq, Repr

/-- Returns true exactly when the modelled call raised before dispatching. -/
def raised {α : Type} : Except String α → Bool
  | .error _ => true
  | .ok _ => false

/-! Section: Resource module: `cves.py` -/

/-- Models `get_cve_info(cve_id, fields=None)`. -/
def get_cve_info (cve_id : String) (fields : Option (List String) := none) :
    Except String Request :=
  if cve_id = "" then .error "cve_id is required"
  else
    let data : RData := match fields with
      | some fs => [("fields", .strList fs)]
      | none => []
    .ok { verb := .GET, resource := "/api/v1/vigiles/cves/" ++ cve_id, data := data }

/-- Models `search_cves_by_product(cpe_product, version="", ids_only=False)`. -/
def search_cves_by_product (cpe_product : String) (version : String := "")
    (ids_only : Bool := false) : Except String Request :=
  if cpe_product = "" then .error "cpe_product is required"
  else
    .ok { verb := .GET, resource := "/api/v1/vigiles/cves",
          data := [("product", .str cpe_product), ("version", .str version),
                   ("ids_only", .bool ids_only)] }

/-- Models `set_status(scope, cve_id, package_name, status, ...)`. -/
def set_status (llapi : Llapi) (scope cve_id package_name status : String)
    (justification : Option String := none)
    (justification_detail : Option String := none)
    (package_version : Option String := none)
    (manifest_tokens : Option (List String) := none)
    (group_tokens : Option (List String) := none) : Except String Request :=
  if cve_id = "" then .error "cve_id is required"
  else if package_name = "" then .error "package_name is required"
  else if status = "" then .error "status is required"
  else
    let group_tokens :=
      if scope = "group" && !listTruthy group_tokens && optTruthy llapi.group_token
      then some [optGet llapi.group_token]
      else group_tokens
    let data : RData :=
      [("scope", .str scope), ("package", .str package_name), ("status", .str status)]
    let data := if optTruthy justification
      then data ++ [("justification", .str (optGet justification))] else data
    let data := if optTruthy package_version
      then data ++ [("package_version", .str (optGet package_version))] else data
    let data := if optTruthy justification_detail
      then data ++ [("justification_detail", .str (optGet justification_detail))] else data
    let data := if listTruthy manifest_tokens
      then data ++ [("manifest_tokens", .strList (manifest_tokens.getD []))] else data
    let data := if listTruthy group_tokens
      then data ++ [("group_tokens", .strList (group_tokens.getD []))] else data
    .ok { verb := .POST, resource := "/api/v1/vigiles/cves/" ++ cve_id ++ "/vuln-status",
          data := data }

/-! Section: Resource module: `folders.py` -/

/-- Models `get_folders(group_token=None, folder_token=None)`. -/
def get_folders (llapi : Llapi) (group_token : Option String := none)
    (folder_token : Option String := none) : Except String Request :=
  let group_token := pyOr group_token llapi.group_token
  let folder_token := pyOr folder_token llapi.folder_token
  let data : RData :=
    if optTruthy group_token && !optTruthy folder_token
    then [("group_token", .str (optGet group_token))] else []
  let data := if optTruthy folder_token
    then data ++ [("folder_token", .str (optGet folder_token))] else data
  .ok { verb := .GET, resource := "/api/v1/vigiles/folders", data := data }

/-- Models `create_folder(folder_name, description=None, group_token=None,
folder_token=None)`.  Note: `folder_name` is not validated. -/
def create_folder (llapi : Llapi) (folder_name : String)
    (description : Option String := none) (group_token : Option String := none)
    (folder_token : Option String := none) : Except String Request :=
  let data : RData := [("folder_name", .str folder_name)]
  let group_token := pyOr group_token llapi.group_token
  let folder_token := pyOr folder_token llapi.folder_token
  let data := if optTruthy description
    then data ++ [("description", .str (optGet description))] else data
  let data := if optTruthy group_token && !optTruthy folder_token
    then data ++ [("group_token", .str (optGet group_token))] else data
  let data := if optTruthy folder_token
    then data ++ [("folder_token", .str (optGet folder_token))] else data
  .ok { verb := .POST, resource := "/api/v1/vigiles/folders", data := data }

/-! Section: Resource module: `groups.py` -/

/-- Models `get_groups()`. -/
def get_groups : Except String Request :=
  .ok { verb := .GET, resource := "/api/v1/vigiles/groups", data := [] }

/-- Models `get_archived_groups()`. -/
def get_archived_groups : Except String Request :=
  .ok { verb := .GET, resource := "/api/v1/vigiles/groups/archived", data := [] }

/-- Models `create_group(group_name, group_description=None, group_token=None)`. -/
def create_group (llapi : Llapi) (group_name : String)
    (group_description : Option String := none)
    (group_token : Option String := none) : Except String Request :=
  if group_name = "" then .error "group_name is required"
  else
    let data : RData := [("group_name", .str group_name)]
    let data := if optTruthy group_description
      then data ++ [("description", .str (optGet group_description))] else data
    let group_token := match group_token with
      | none => llapi.group_token
      | some t => some t
    let data := if optTruthy group_token
      then data ++ [("group_token", .str (optGet group_token))] else data
    .ok { verb := .POST, resource := "/api/v1/vigiles/groups", data := data }

/-- Models `get_group_info(group_token=None, subgroups=False)`. -/
def get_group_info (llapi : Llapi) (group_token : Option String := none)
    (subgroups : Bool := false) : Except String Request :=
  let group_token := match group_token with
    | none => llapi.group_token
    | some t => some t
  if !optTruthy group_token then
    .error "group_token is required either as a parameter or configured on the llapi object"
  else
    .ok { verb := .GET, resource := "/api/v1/vigiles/groups/" ++ optGet group_token,
          data := [("subgroups", .bool subgroups)] }

/-- Models `bulk_archive_groups(tokens)`.  Note: `tokens` is not validated. -/
def bulk_archive_groups (tokens : List String) : Except String Request :=
  .ok { verb := .PATCH, resource := "/api/v1/vigiles/groups/archive",
        data := [("tokens", .strList tokens)] }

/-- Models `bulk_unarchive_groups(tokens)`.  Note: `tokens` is not validated. -/
def bulk_unarchive_groups (tokens : List String) : Except String Request :=
  .ok { verb := .PATCH, resource := "/api/v1/vigiles/groups/unarchive",
        data := [("tokens", .strList tokens)] }

/-- Models `delete_group(group_token)`. -/
def delete_group (group_token : String) : Except String Request :=
  if group_token = "" then .error "group_token is required"
  else .ok { verb := .DELETE, resource := "/api/v1/vigiles/groups/" ++ group_token,
             data := [] }

/-- Models `get_group_members(group_token)`. -/
def get_group_members (group_token : String) : Except String Request :=
  if group_token = "" then .error "group_token is required"
  else .ok { verb := .GET,
             resource := "/api/v1/vigiles/groups/" ++ group_token ++ "/members",
             data := [] }

/-- Models `add_group_member(group_token, member_email, role, access_subgroups=False)`. -/
def add_group_member (group_token member_email role : String)
    (access_subgroups : Bool := false) : Except String Request :=
  if group_token = "" then .error "group_token is required"
  else if member_email = "" then .error "member_email is required"
  else if role = "" then .error "role is required"
  else
    .ok { verb := .POST,
          resource := "/api/v1/vigiles/groups/" ++ group_token ++ "/members",
          data := [("member_email", .str member_email), ("role", .str role),
                   ("allow_access_to_subgroups", .bool access_subgroups)],
          json := true }

/-- Models `update_group_member(group_token, member_email, new_role)`. -/
def update_group_member (group_token member_email new_role : String) :
    Except String Request :=
  if group_token = "" then .error "group_token is required"
  else if member_email = "" then .error "member_email is required"
  else if new_role = "" then .error "new_role is required"
  else
    .ok { verb := .PUT,
          resource := "/api/v1/vigiles/groups/" ++ group_token ++ "/members/"
            ++ member_email,
          data := [("new_role", .str new_role)], json := true }

/-- Models `remove_group_member(group_token, member_email)`. -/
def remove_group_member (group_token member_email : String) :
    Except String Request :=
  if group_token = "" then .error "group_token is required"
  else if member_email = "" then .error "member_email is required"
  else
    .ok { verb := .DELETE,
          resource := "/api/v1/vigiles/groups/" ++ group_token ++ "/members/"
            ++ member_email,
          data := [] }

/-- Models `get_group_settings(group_token=None)`. -/
def get_group_settings (llapi : Llapi) (group_token : Option String := none) :
    Except String Request :=
  let group_token := match group_token with
    | none => llapi.group_token
    | some t => some t
  if !optTruthy group_token then
    .error "group_token is required either as a parameter or configured on the llapi object"
  else
    .ok { verb := .GET,
          resource := "/api/v1/vigiles/groups/" ++ optGet group_token ++ "/settings",
          data := [] }

/-- Models `update_group_settings(group_token=None, vuln_identifiers=None,
vuln_strict_match=None)`. -/
def update_group_settings (llapi : Llapi) (group_token : Option String := none)
    (vuln_identifiers : Option (List String) := none)
    (vuln_strict_match : Option String := none) : Except String Request :=
  let group_token := match group_token with
    | none => llapi.group_token
    | some t => some t
  if !optTruthy group_token then
    .error "group_token is required either as a parameter or configured on the llapi object"
  else
    let payload : RData := match vuln_identifiers with
      | some vs => [("vuln_identifiers", .strList vs)]
      | none => []
    let payload := match vuln_strict_match with
      | some v => payload ++ [("vuln_strict_match", .str v)]
      | none => payload
    .ok { verb := .PATCH,
          resource := "/api/v1/vigiles/groups/" ++ optGet group_token ++ "/settings",
          data := payload }

/-! Section: Resource module: `reports.py` -/

/-- Models `download_report(report_token, format=None, filter_results=False,
cyclonedx_format="json", cyclonedx_version="1.6")`. -/
def download_report (report_token : String) (format : Option String := none)
    (filter_results : Bool := false) (cyclonedx_format : String := "json")
    (cyclonedx_version : String := "1.6") : Except String Request :=
  let valid_formats := ["csv", "pdf", "pdfsummary", "xlsx", "cyclonedx-vex",
                        "cyclonedx-sbom-vex"]
  if report_token = "" then .error "report_token is required"
  else
    match format with
    | none => .error "Invalid or missing format arg"
    | some fmt =>
      if !valid_formats.contains fmt then .error "Invalid or missing format arg"
      else
        let data : RData := [("filtered", .bool filter_results), ("format", .str fmt)]
        let data :=
          if pyLower fmt = "cyclonedx-vex" || pyLower fmt = "cyclonedx-sbom-vex"
          then data ++ [("sbom_format", .str cyclonedx_format),
                        ("sbom_version", .str cyclonedx_version)]
          else data
        .ok { verb := .GET, resource := "/api/v1/vigiles/reports/" ++ report_token,
              data := data, json := false }

/-- Models `compare_reports(token_one, token_two, remove_whitelist=False,
remove_not_affected=False, filter_results=False)`. -/
def compare_reports (token_one token_two : String) (remove_whitelist : Bool := false)
    (remove_not_affected : Bool := false) (filter_results : Bool := false) :
    Except String Request :=
  if !(token_one ≠ "" && token_two ≠ "") then
    .error "Two CVE report token arguments are required for comparison"
  else
    .ok { verb := .GET, resource := "/api/v1/vigiles/reports/compare",
          data := [("token_one", .str token_one), ("token_two", .str token_two),
                   ("remove_whitelist", .bool remove_whitelist),
                   ("remove_not_affected", .bool remove_not_affected),
                   ("filtered", .bool filter_results)] }

/-! Section: Resource module: `manifests.py` -/

/-- Models `ALMALINUX` ecosystem list (manifests.py line 13). -/
def ALMALINUX : List String := ["AlmaLinux", "AlmaLinux:8", "AlmaLinux:9"]

/-- Models `ALPINE` ecosystem list (manifests.py line 14). -/
def ALPINE : List String :=
  ["Alpine", "Alpine:v3.10", "Alpine:v3.11", "Alpine:v3.12", "Alpine:v3.13",
   "Alpine:v3.14", "Alpine:v3.15", "Alpine:v3.16", "Alpine:v3.17", "Alpine:v3.18",
   "Alpine:v3.19", "Alpine:v3.2", "Alpine:v3.20", "Alpine:v3.3", "Alpine:v3.4",
   "Alpine:v3.5", "Alpine:v3.6", "Alpine:v3.7", "Alpine:v3.8", "Alpine:v3.9"]

/-- Models `DEBIAN` ecosystem list (manifests.py line 15). -/
def DEBIAN : List String :=
  ["Debian", "Debian:10", "Debian:11", "Debian:12", "Debian:13", "Debian:3.0",
   "Debian:3.1", "Debian:4.0", "Debian:5.0", "Debian:6.0", "Debian:7", "Debian:8",
   "Debian:9"]

/-- Models `ROCKY` ecosystem list (manifests.py line 16). -/
def ROCKY : List String := ["Rocky Linux", "Rocky Linux:8", "Rocky Linux:9"]

/-- Models `UBUNTU` ecosystem list (manifests.py line 17). -/
def UBUNTU : List String :=
  ["Ubuntu", "Ubuntu:14.04:LTS", "Ubuntu:16.04:LTS", "Ubuntu:18.04:LTS",
   "Ubuntu:20.04:LTS", "Ubuntu:22.04:LTS", "Ubuntu:23.10", "Ubuntu:24.04:LTS",
   "Ubuntu:Pro:14.04:LTS", "Ubuntu:Pro:16.04:LTS", "Ubuntu:Pro:18.04:LTS",
   "Ubuntu:Pro:20.04:LTS", "Ubuntu:Pro:22.04:LTS", "Ubuntu:Pro:24.04:LTS"]

/-- Models `OTHERS` ecosystem list (manifests.py line 18). -/
def OTHERS : List String :=
  ["Android", "Bitnami", "CRAN", "GIT", "GSD", "GitHub Actions", "Go", "Hackage",
   "Hex", "Linux", "Maven", "NuGet", "OSS-Fuzz", "Packagist", "Pub", "PyPI",
   "RubyGems", "SwiftURL", "UVI", "crates.io", "npm"]

/-- Models `ALL_ECOSYSTEMS = OTHERS + ALMALINUX + ALPINE + DEBIAN + ROCKY + UBUNTU`
(manifests.py line 20): the static allow-list in its declared order. -/
def ALL_ECOSYSTEMS : List String :=
  OTHERS ++ ALMALINUX ++ ALPINE ++ DEBIAN ++ ROCKY ++ UBUNTU

/-- Models `get_manifests()`: the configured folder token takes precedence over the
configured group token; both checks are `is not None` checks. -/
def get_manifests (llapi : Llapi) : Except String Request :=
  let data : RData :=
    match llapi.folder_token with
    | some f => [("folder_token", .str f)]
    | none =>
      match llapi.group_token with
      | some g => [("group_token", .str g)]
      | none => []
  .ok { verb := .GET, resource := "/api/v1/vigiles/manifests", data := data }

/-- Models `get_manifest_info(manifest_token, sbom_format=None, file_format=None,
sbom_version=None)`. -/
def get_manifest_info (manifest_token : String) (sbom_format : Option String := none)
    (file_format : Option String := none) (sbom_version : Option String := none) :
    Except String Request :=
  if manifest_token = "" then .error "manifest_token is required"
  else
    let data : RData := []
    let data := if optTruthy sbom_format
      then data ++ [("sbom_format", .str (optGet sbom_format))] else data
    let data := if optTruthy file_format
      then data ++ [("file_format", .str (optGet file_format))] else data
    let data := if optTruthy sbom_version
      then data ++ [("sbom_version", .str (optGet sbom_version))] else data
    .ok { verb := .GET, resource := "/api/v1/vigiles/manifests/" ++ manifest_token,
          data := data }

/-- Models `get_manifest_file(manifest_token, ...)`: raw bytes requested
(`json=False`). -/
def get_manifest_file (manifest_token : String) (sbom_format : Option String := none)
    (file_format : Option String := none) (sbom_version : Option String := none) :
    Except String Request :=
  if manifest_token = "" then .error "manifest_token is required"
  else
    let data : RData := [("send_file", .bool true)]
    let data := if optTruthy sbom_format
      then data ++ [("sbom_format", .str (optGet sbom_format))] else data
    let data := if optTruthy file_format
      then data ++ [("file_format", .str (optGet file_format))] else data
    let data := if optTruthy sbom_version
      then data ++ [("sbom_version", .str (optGet sbom_version))] else data
    .ok { verb := .GET, resource := "/api/v1/vigiles/manifests/" ++ manifest_token,
          data := data, json := false }

/-- The ecosystems block of `upload_manifest` (manifests.py lines 274-288),
run when the `ecosystems` argument is not `None`: returns the string stored
in `data["ecosystems"]` and the warning events emitted.  The Python
`invalid_ecosystems` set is represented by the duplicate-free list of the
invalid entries. -/
def ecosystemsField (ecosystems_str : String) : String × List LogEvent :=
  if pyLower ecosystems_str = "all" then
    (pyJoin "," ALL_ECOSYSTEMS, [])
  else
    let entries := (pySplitChar ',' ecosystems_str).map pyStrip
    let invalid := entries.filter (fun e => !ALL_ECOSYSTEMS.contains e)
    let events : List LogEvent :=
      if invalid.isEmpty then [] else [.invalidEcosystems invalid.dedup]
    let kept := entries.filter (fun item => !invalid.contains item)
    (pyJoin "," kept, events)

/-- Models `upload_manifest(...)` up to the `POST` dispatch (manifests.py lines
246-314): validation, request-data construction, and the warnings emitted.
The `extra_fields` isinstance check always succeeds in this typed model. -/
def upload_manifest_request (llapi : Llapi) (manifest : String)
    (kernel_config : Option String := none) (uboot_config : Option String := none)
    (manifest_name : Option String := none) (subfolder_name : Option String := none)
    (filter_results : Bool := false) (extra_fields : Option (List String) := none)
    (upload_only : Bool := false) (ecosystems : Option String := none)
    (subscribe : Option String := none) (export_format : Option String := none)
    (cyclonedx_format : Option String := none)
    (cyclonedx_version : Option String := none) :
    Except String (Request × List LogEvent) :=
  if manifest = "" then .error "manifest data is required"
  else
    let data : RData := [("manifest", .str manifest),
                         ("filter_results", .bool filter_results),
                         ("upload_only", .bool upload_only)]
    let data := match kernel_config with
      | some k => data ++ [("kernel_config", .str k)]
      | none => data
    let data := match manifest_name with
      | some n => data ++ [("manifest_name", .str n)]
      | none => data
    let data := match uboot_config with
      | some u => data ++ [("uboot_config", .str u)]
      | none => data
    let data := match subfolder_name with
      | some s => data ++ [("subfolder_name", .str s)]
      | none => data
    let data := match extra_fields with
      | some fs => data ++ [("with_field", .strList fs)]
      | none => data
    let ecoPair := match ecosystems with
      | some s => let p := ecosystemsField s; (some p.1, p.2)
      | none => (none, [])
    let data := match ecoPair.1 with
      | some v => data ++ [("ecosystems", .str v)]
      | none => data
    let warnings := ecoPair.2
    let data := match subscribe with
      | some s => data ++ [("subscribe", .str s)]
      | none => data
    let group_token := llapi.group_token
    let folder_token := llapi.folder_token
    let data := if optTruthy folder_token
      then data ++ [("folder_token", .str (optGet folder_token))] else data
    let data := if optTruthy group_token
      then data ++ [("group_token", .str (optGet group_token))] else data
    let warnings := if optTruthy group_token then warnings
      else warnings ++ [.privateWorkspaceDefault]
    let warnings :=
      if !optTruthy group_token && (optTruthy folder_token || optTruthy subfolder_name)
      then warnings ++ [.foldersIgnored] else warnings
    let data := if optTruthy export_format
      then data ++ [("export_format", .str (optGet export_format))] else data
    let data := if optTruthy cyclonedx_format
      then data ++ [("cyclonedx_format", .str (optGet cyclonedx_format))] else data
    let data := if optTruthy cyclonedx_version
      then data ++ [("cyclonedx_version", .str (optGet cyclonedx_version))] else data
    .ok ({ verb := .POST, resource := "/api/v1/vigiles/manifests", data := data },
         warnings)

/-- Models `rescan_manifest(manifest_token, rescan_only=False, filter_results=False,
extra_fields=None)`. -/
def rescan_manifest (manifest_token : String) (rescan_only : Bool := false)
    (filter_results : Bool := false) (extra_fields : Option (List String) := none) :
    Except String Request :=
  if manifest_token = "" then .error "manifest_token is required"
  else
    let data : RData := [("manifest", .str manifest_token),
                         ("rescan_only", .bool rescan_only),
                         ("filtered", .bool filter_results)]
    let data := match extra_fields with
      | some fs => data ++ [("with_field", .strList fs)]
      | none => data
    .ok { verb := .POST,
          resource := "/api/v1/vigiles/manifests/" ++ manifest_token ++ "/reports",
          data := data }

/-- Models `delete_manifest(manifest_token, confirmed=False)`. -/
def delete_manifest (manifest_token : String) (confirmed : Bool := false) :
    Except String Request :=
  if manifest_token = "" then .error "manifest_token is required"
  else
    .ok { verb := .DELETE,
          resource := "/api/v1/vigiles/manifests/" ++ manifest_token,
          data := [("confirmed", .bool confirmed)] }

/-- Models `get_report_tokens(manifest_token)`. -/
def get_report_tokens (manifest_token : String) : Except String Request :=
  if manifest_token = "" then .error "manifest_token is required"
  else
    .ok { verb := .GET,
          resource := "/api/v1/vigiles/manifests/" ++ manifest_token ++ "/reports",
          data := [] }

/-- Models `get_latest_report(manifest_token, filter_results=False, extra_fields=None)`. -/
def get_latest_report (manifest_token : String) (filter_results : Bool := false)
    (extra_fields : Option (List String) := none) : Except String Request :=
  if manifest_token = "" then .error "manifest_token is required"
  else
    let data : RData := [("filtered", .bool filter_results)]
    let data := match extra_fields with
      | some fs => data ++ [("with_field", .strList fs)]
      | none => data
    .ok { verb := .GET,
          resource := "/api/v1/vigiles/manifests/" ++ manifest_token
            ++ "/reports/latest",
          data := data }

/-- Models `set_custom_score(manifest_token, product_name, cve_id, custom_score,
product_version=None)`: `all([...])` requires every one of the four to be
truthy. -/
def set_custom_score (manifest_token product_name cve_id custom_score : String)
    (product_version : Option String := none) : Except String Request :=
  if product_name = "" || cve_id = "" || custom_score = "" || manifest_token = ""
  then .error "Missing required data from: product_name, cve_id, custom_score, manifest_token"
  else
    let data : RData := [("package_name", .str product_name), ("cve_id", .str cve_id),
                         ("custom_score", .str custom_score)]
    let data := match product_version with
      | some v => data ++ [("package_version", .str v)]
      | none => data
    .ok { verb := .POST,
          resource := "/api/v1/vigiles/manifests/" ++ manifest_token
            ++ "/custom_scores",
          data := data }

/-- Models `bulk_move_manifests(sbom_tokens, target_group_token=None,
target_folder_token=None, include_history=False)`. -/
def bulk_move_manifests (sbom_tokens : List String)
    (target_group_token : Option String := none)
    (target_folder_token : Option String := none)
    (include_history : Bool := false) : Except String Request :=
  if !(optTruthy target_group_token || optTruthy target_folder_token) then
    .error "Please specify either a target group or target folder token"
  else
    let data : RData := [("sbom_tokens", .strList sbom_tokens),
                         ("copy", .bool false),
                         ("include_history", .bool include_history)]
    let data := if optTruthy target_folder_token
      then data ++ [("target_folder_token", .str (optGet target_folder_token))]
      else data
    let data := if optTruthy target_group_token
      then data ++ [("target_group_token", .str (optGet target_group_token))]
      else data
    .ok { verb := .POST, resource := "/api/v1/vigiles/manifests/bulk-options/move",
          data := data }

/-- Models `bulk_copy_manifests(sbom_tokens, target_group_token=None,
target_folder_token=None, include_history=False)`. -/
def bulk_copy_manifests (sbom_tokens : List String)
    (target_group_token : Option String := none)
    (target_folder_token : Option String := none)
    (include_history : Bool := false) : Except String Request :=
  if !(optTruthy target_group_token || optTruthy target_folder_token) then
    .error "Please specify either a target group or target folder token"
  else
    let data : RData := [("sbom_tokens", .strList sbom_tokens),
                         ("copy", .bool true),
                         ("include_history", .bool include_history)]
    let data := if optTruthy target_folder_token
      then data ++ [("target_folder_token", .str (optGet target_folder_token))]
      else data
    let data := if optTruthy target_group_token
      then data ++ [("target_group_token", .str (optGet target_group_token))]
      else data
    .ok { verb := .POST, resource := "/api/v1/vigiles/manifests/bulk-options/move",
          data := data }

/-! Section: Server response model and `upload_manifest` response handling -/

/-- A JSON value in a parsed server response. -/
inductive JVal where
  | null
  | str (s : String)
  | num (n : Int)
  | bool (b : Bool)
  | obj (fields : List (String × JVal))

/-- A parsed server response mapping (Python dict in insertion order). -/
abbrev JObj := List (String × JVal)

/-- Python truthiness of a response value. -/
def jTruthy : JVal → Bool
  | .null => false
  | .str s => !s.isEmpty
  | .num n => n != 0
  | .bool b => b
  | .obj fields => !fields.isEmpty

/-- Models `dict.pop(k)`: the value at `k` together with the mapping without `k`,
or `none` (Python: `KeyError`) when `k` is absent. -/
def popKey (o : JObj) (k : String) : Option (JVal × JObj) :=
  match o.lookup k with
  | some v => some (v, o.filter (fun p => p.1 != k))
  | none => none

/-- The response handling of `upload_manifest` (manifests.py lines 316-333):
pop `exported_report` (raising `KeyError` when absent); when its value is
truthy, derive the file extension from `export_format` (`AttributeError`
when that is `None`), replace the extension of `export_path` (`TypeError`
when that is `None`), attempt the save, and log — never raise — any save
failure.  `saveAt` models the filesystem outcome of `save_file` at a given
path; the popped `result` is returned whenever no error was raised. -/
def upload_manifest_result (export_format cyclonedx_format export_path : Option String)
    (saveAt : String → Except String Unit) (result : JObj) :
    Except String (JObj × List LogEvent) :=
  match popKey result "exported_report" with
  | none => .error "KeyError: exported_report"
  | some (exported_report_data, result) =>
    if jTruthy exported_report_data then
      match export_format with
      | none => .error "AttributeError: NoneType object has no attribute startswith"
      | some fmt =>
        let file_extension := fmt
        let file_extension :=
          if pyStartswith file_extension "pdf" then pyTake file_extension 3
          else if pyStartswith file_extension "cyclonedx" then
            pyStrOfOpt cyclonedx_format
          else file_extension
        match export_path with
        | none => .error "TypeError: splitext expected str, not NoneType"
        | some p =>
          let root := (pySplitext p).1
          let export_path := root ++ "." ++ file_extension
          match saveAt export_path with
          | .ok _ => .ok (result, [.exportSaved export_path])
          | .error e => .ok (result, [.exportSaveError e])
    else .ok (result, [])

/-! Section: File decoder: `core/utils.py` (`save_file`) with a Base64 model

`save_file(data, file_path)` base64-decodes `data`, gzip-decompresses the
result, and writes the bytes to `file_path`, overwriting any existing file.
Base64 is modelled concretely below; gzip is an external stdlib
collaborator and enters `save_file` as a decompression function. -/

/-- The Base64 alphabet in index order. -/
def b64alphabet : List Char :=
  "ABCDEFGHIJKLMNOPQRSTUVWXYZabcdefghijklmnopqrstuvwxyz0123456789+/".toList

/-- The alphabet character for a sextet value. -/
def b64char (n : Nat) : Char := b64alphabet.getD n 'A'

/-- Helper: index of a character in a character list (0 if absent). -/
def b64indexAux : List Char → Char → Nat → Nat
  | [], _, _ => 0
  | x :: xs, c, i => if x = c then i else b64indexAux xs c (i + 1)

/-- The sextet value of a Base64 alphabet character (invalid characters,
which `base64.b64decode` rejects, are mapped to 0; they never arise when
decoding encoder output). -/
def b64index (c : Char) : Nat := b64indexAux b64alphabet c 0

/-- Models `base64.b64encode` over byte values: 3-byte groups become 4 alphabet
characters; a trailing 1- or 2-byte group is padded with `=`. -/
def b64encode : List Nat → List Char
  | [] => []
  | [a] => [b64char (a / 4), b64char (a % 4 * 16), '=', '=']
  | [a, b] => [b64char (a / 4), b64char (a % 4 * 16 + b / 16),
               b64char (b % 16 * 4), '=']
  | a :: b :: c :: rest =>
    b64char (a / 4) :: b64char (a % 4 * 16 + b / 16) ::
    b64char (b % 16 * 4 + c / 64) :: b64char (c % 64) :: b64encode rest

/-- Models `base64.b64decode` over well-padded input: groups of 4 characters each
yield 3 bytes, except a final `=`-padded group which yields 1 or 2. -/
def b64decode : List Char → List Nat
  | c0 :: c1 :: c2 :: c3 :: rest =>
    if c2 = '=' then [b64index c0 * 4 + b64index c1 / 16]
    else if c3 = '=' then
      [b64index c0 * 4 + b64index c1 / 16,
       b64index c1 % 16 * 16 + b64index c2 / 4]
    else
      (b64index c0 * 4 + b64index c1 / 16) ::
      (b64index c1 % 16 * 16 + b64index c2 / 4) ::
      (b64index c2 % 4 * 64 + b64index c3) :: b64decode rest
  | _ => []

/-- A file system: destination paths mapped to byte contents; writing
prepends, so `lookup` sees the newest write (overwrite semantics). -/
abbrev FileSys := List (String × List Nat)

/-- Models `open(path, "wb").write(content)`: (over)write a file. -/
def writeFile (fs : FileSys) (path : String) (content : List Nat) : FileSys :=
  (path, content) :: fs

/-- Models `save_file(data, file_path)` (core/utils.py lines 9-25): base64-decode
`data`, decompress with the external gzip collaborator `gunzip`, and write
the bytes to `file_path`. -/
def save_file (gunzip : List Nat → List Nat) (data : List Char)
    (file_path : String) (fs : FileSys) : FileSys :=
  let decoded_data := b64decode data
  let file_content := gunzip decoded_data
  writeFile fs file_path file_content

/-! Section: Scan runner: `vigiles_cli/scan/runner.py` summary formatting -/

/-- Models `d.get(k, default)` for an integer count (keys present with a
non-numeric value do not arise in the inputs modelled here). -/
def getIntD (o : JObj) (k : String) (d : Int) : Int :=
  match o.lookup k with
  | some (.num n) => n
  | _ => d

/-- Models `d.get(k, {})` for a nested mapping. -/
def getObjD (o : JObj) (k : String) : JObj :=
  match o.lookup k with
  | some (.obj fields) => fields
  | _ => []

/-- Models `d.get(k, "")` for a string field. -/
def getStrD (o : JObj) (k : String) : String :=
  match o.lookup k with
  | some (.str s) => s
  | _ => ""

/-- Totals reported by the count parsers. -/
structure CveCounts where
  total : Int
  userspace : Int
  kernel : Int
  deriving DecidableEq, Repr

/-- Models `parse_unfixed_cve_counts(counts)` (runner.py lines 196-208): unfixed
totals sum `unfixed + unapplied + upgradable`; kernel counts come from the
nested `kernel` mapping; user space is total minus kernel. -/
def parse_unfixed_cve_counts (counts : JObj) : CveCounts :=
  let total := getIntD counts "unfixed" 0 + getIntD counts "unapplied" 0
    + getIntD counts "upgradable" 0
  let kernel := getIntD (getObjD counts "kernel") "unfixed" 0
    + getIntD (getObjD counts "kernel") "unapplied" 0
    + getIntD (getObjD counts "kernel") "upgradable" 0
  { total := total, userspace := total - kernel, kernel := kernel }

/-- Models `parse_fixed_cve_counts(counts)` (runner.py lines 211-215). -/
def parse_fixed_cve_counts (counts : JObj) : CveCounts :=
  let total := getIntD counts "fixed" 0
  let kernel := getIntD (getObjD counts "kernel") "fixed" 0
  { total := total, userspace := total - kernel, kernel := kernel }

/-- Models `parse_cvss_counts(counts)` (runner.py lines 218-228). -/
def parse_cvss_counts (counts : JObj) : CveCounts :=
  let high_cvss_total := getIntD (getObjD counts "high") "unfixed" 0
  let high_cvss_kernel := getIntD (getObjD (getObjD counts "kernel") "high") "unfixed" 0
  let critical_cvss_total := getIntD (getObjD counts "critical") "unfixed" 0
  let critical_cvss_kernel :=
    getIntD (getObjD (getObjD counts "kernel") "critical") "unfixed" 0
  let total := high_cvss_total + critical_cvss_total
  let kernel := high_cvss_kernel + critical_cvss_kernel
  { total := total, userspace := total - kernel, kernel := kernel }

/-- Models `urllib.parse.urljoin(base, url)` modelled for the references produced
by the server: absolute-path references (a leading `/`) replace the whole
path of a base URL of the form `scheme://netloc/...`.  A base without
`://` contributes no scheme or netloc. -/
def schemeSplit : List Char → Option (List Char × List Char)
  | ':' :: '/' :: '/' :: rest => some ([':', '/', '/'], rest)
  | c :: rest => (schemeSplit rest).map (fun p => (c :: p.1, p.2))
  | [] => none

/-- See `schemeSplit`: join an absolute-path reference onto a base URL. -/
def pyUrljoin (base url : String) : String :=
  match schemeSplit base.toList with
  | some (pre, rest) => String.mk (pre ++ rest.takeWhile (fun c => c ≠ '/')) ++ url
  | none => url

/-- Models `print_report_overview(result)` (runner.py lines 241-257) as the list
of strings printed: a report URL joined from the client's base URL and the
returned `report_path`, else a dashboard section from `product_path`. -/
def print_report_overview (llapi : Llapi) (result : JObj) : List String :=
  let report_path := getStrD result "report_path"
  let product_path := getStrD result "product_path"
  if report_path ≠ "" then
    let report_url := pyUrljoin llapi.url report_path
    ["\n-- Vigiles Vulnerability Report --",
     "\n\tView detailed online report at:\n\t  " ++ report_url]
  else if product_path ≠ "" then
    let product_url := pyUrljoin llapi.url product_path
    let product_name :=
      match result.lookup "product_name" with
      | some (.str s) => s
      | _ => "Default"
    ["\n-- Vigiles Dashboard --",
     "\n\tThe SBOM has been uploaded to the '" ++ product_name
       ++ "' Product Workspace:\n\n\t  " ++ product_url ++ "\n"]
  else []

/-- Models `print_summary(result)` (runner.py lines 260-291) as the list of lines
printed: only when `"counts" in result`, the unfixed / fixed /
high-critical-CVSS summary lines. -/
def print_summary (result : JObj) : List String :=
  if (result.lookup "counts").isSome then
    let counts := getObjD result "counts"
    let unfixed := parse_unfixed_cve_counts counts
    let fixed := parse_fixed_cve_counts counts
    let cvss_counts := getObjD counts "cvss_counts"
    let cvss := parse_cvss_counts cvss_counts
    ["\n\tUnfixed: " ++ toString unfixed.total ++ " (" ++ toString unfixed.userspace
       ++ " User space, " ++ toString unfixed.kernel ++ " Kernel)",
     "\tFixed: " ++ toString fixed.total ++ " (" ++ toString fixed.userspace
       ++ " User space, " ++ toString fixed.kernel ++ " Kernel)",
     "\tHigh/Critical CVSS (Unfixed): " ++ toString cvss.total ++ " ("
       ++ toString cvss.userspace ++ " User space, " ++ toString cvss.kernel
       ++ " Kernel)"]
  else []

/-! Section: Shared helpers for the theorems -/

/-- Request data of a dispatched upload call (empty when the call raised). -/
def reqData : Except String (Request × List LogEvent) → RData
  | .ok (r, _) => r.data
  | .error _ => []

/-- Warnings of a dispatched upload call (empty when the call raised). -/
def reqWarnings : Except String (Request × List LogEvent) → List LogEvent
  | .ok (_, w) => w
  | .error _ => []

/-- Rewrites a `copy` request field to `true`, leaving all else unchanged. -/
def setCopyTrue (p : String × RVal) : String × RVal :=
  if p.1 = "copy" then (p.1, RVal.bool true) else p

/-- Entries kept by the ecosystems block (those not in the invalid set) are
exactly the entries on the allow-list. -/
theorem kept_eq_valid (entries : List String) :
    entries.filter
      (fun item => !(entries.filter (fun e => !ALL_ECOSYSTEMS.contains e)).contains item)
      = entries.filter (fun e => ALL_ECOSYSTEMS.contains e) := by
  apply List.filter_congr
  intro x hx
  by_cases hmem : x ∈ ALL_ECOSYSTEMS
  · have hninv : x ∉ entries.filter (fun e => !ALL_ECOSYSTEMS.contains e) := by
      intro hinv
      have := (List.mem_filter.mp hinv).2
      simp [hmem] at this
    simp [hmem, hninv]
  · have hinv : x ∈ entries.filter (fun e => !ALL_ECOSYSTEMS.contains e) := by
      refine List.mem_filter.mpr ⟨hx, ?_⟩
      simp [hmem]
    simp [hmem, hinv, hx]

/-- A boolean prefix test determines the corresponding take. -/
theorem take_of_isPrefixOf : ∀ (pre l : List Char),
    List.isPrefixOf pre l = true → l.take pre.length = pre
  | [], _, _ => by simp
  | a :: as, [], h => by simp [List.isPrefixOf] at h
  | a :: as, b :: bs, h => by
    simp only [List.isPrefixOf, Bool.and_eq_true, beq_iff_eq] at h
    obtain ⟨h1, h2⟩ := h
    simp [List.take, h1, take_of_isPrefixOf as bs h2]

/-- Decoding the alphabet character of any sextet recovers the sextet. -/
theorem b64index_b64char_fin : ∀ n : Fin 64, b64index (b64char n.val) = n.val := by
  decide

/-- No sextet encodes to the padding character. -/
theorem b64char_ne_pad_fin : ∀ n : Fin 64, b64char n.val ≠ '=' := by
  decide

/-- Nat form of `b64index_b64char_fin`. -/
theorem b64index_b64char (n : Nat) (h : n < 64) : b64index (b64char n) = n :=
  b64index_b64char_fin ⟨n, h⟩

/-- Nat form of `b64char_ne_pad_fin`. -/
theorem b64char_ne_pad (n : Nat) (h : n < 64) : b64char n ≠ '=' :=
  b64char_ne_pad_fin ⟨n, h⟩

/-- Base64 decoding inverts Base64 encoding on byte lists. -/
theorem b64_roundtrip : ∀ bs : List Nat, (∀ x ∈ bs, x < 256) →
    b64decode (b64encode bs) = bs
  | [], _ => rfl
  | [a], h => by
    have ha : a < 256 := h a (by simp)
    simp only [b64encode, b64decode, if_pos rfl]
    rw [b64index_b64char _ (by omega), b64index_b64char _ (by omega)]
    simp
    omega
  | [a, b], h => by
    have ha : a < 256 := h a (by simp)
    have hb : b < 256 := h b (by simp)
    simp only [b64encode, b64decode]
    rw [if_neg (b64char_ne_pad _ (by omega))]
    simp only [if_true]
    rw [b64index_b64char _ (by omega), b64index_b64char _ (by omega),
        b64index_b64char _ (by omega)]
    simp
    constructor <;> omega
  | a :: b :: c :: d :: rest, h => by
    have ha : a < 256 := h a (by simp)
    have hb : b < 256 := h b (by simp)
    have hc : c < 256 := h c (by simp)
    have ih := b64_roundtrip (d :: rest) (fun x hx => h x (by simp at hx ⊢; tauto))
    simp only [b64encode, b64decode]
    rw [if_neg (b64char_ne_pad _ (by omega)), if_neg (b64char_ne_pad _ (by omega))]
    rw [b64index_b64char _ (by omega), b64index_b64char _ (by omega),
        b64index_b64char _ (by omega), b64index_b64char _ (by omega)]
    rw [ih]
    simp
    refine ⟨by omega, by omega, by omega⟩
  | [a, b, c], h => by
    have ha : a < 256 := h a (by simp)
    have hb : b < 256 := h b (by simp)
    have hc : c < 256 := h c (by simp)
    simp only [b64encode, b64decode]
    rw [if_neg (b64char_ne_pad _ (by omega)), if_neg (b64char_ne_pad _ (by omega))]
    rw [b64index_b64char _ (by omega), b64index_b64char _ (by omega),
        b64index_b64char _ (by omega), b64index_b64char _ (by omega)]
    simp
    refine ⟨by omega, by omega, by omega⟩

/-- The mocked scan-upload response of the end-to-end scenario. -/
def scanResponse : JObj :=
  [("manifest_token", .str "m1"),
   ("counts", .obj [("unfixed", .num 3), ("fixed", .num 1),
                    ("kernel", .obj [("unfixed", .num 1)])]),
   ("report_path", .str "/reports/r1")]

/-! Section: Claim theorems -/

/-- Claim C1, counterexample: the claim says every resource-module operation
with a required parameter raises before any API-client verb method when the
parameter is absent or falsy, and that every mutating operation requires at
least one identifying token.  It is false: `bulk_archive_groups([])` (a
mutating PATCH) and `create_folder("")` (a mutating POST) dispatch their
requests with the falsy identifying parameter instead of raising. -/
theorem C1_counterexample :
    bulk_archive_groups []
      = .ok ⟨.PATCH, "/api/v1/vigiles/groups/archive", [("tokens", .strList [])], true⟩
    ∧ create_folder {} ""
      = .ok ⟨.POST, "/api/v1/vigiles/folders", [("folder_name", .str "")], true⟩ := by
  constructor <;> rfl

/-- Claim C1, amended: every resource-module operation that has a required
parameter raises before any API-client verb method is invoked when that
parameter is falsy — except `bulk_archive_groups`, `bulk_unarchive_groups`
(token list not validated), `create_folder` (folder name not validated), and
`bulk_move_manifests` / `bulk_copy_manifests` (the required `sbom_tokens`
list is not validated; only the target tokens are), all of which build and
dispatch their mutating requests anyway.  Verified at the falsy value of
each required parameter, with the other arguments at their defaults except
where a passing value is needed to reach the unvalidated one. -/
theorem C1_spec :
    raised (get_cve_info "") = true ∧
    raised (search_cves_by_product "") = true ∧
    raised (set_status {} "group" "" "p" "s") = true ∧
    raised (set_status {} "group" "c" "" "s") = true ∧
    raised (set_status {} "group" "c" "p" "") = true ∧
    raised (create_group {} "") = true ∧
    raised (get_group_info {}) = true ∧
    raised (delete_group "") = true ∧
    raised (get_group_members "") = true ∧
    raised (add_group_member "" "e" "r") = true ∧
    raised (add_group_member "g" "" "r") = true ∧
    raised (add_group_member "g" "e" "") = true ∧
    raised (update_group_member "" "e" "r") = true ∧
    raised (update_group_member "g" "" "r") = true ∧
    raised (update_group_member "g" "e" "") = true ∧
    raised (remove_group_member "" "e") = true ∧
    raised (remove_group_member "g" "") = true ∧
    raised (get_group_settings {}) = true ∧
    raised (update_group_settings {}) = true ∧
    raised (get_manifest_info "") = true ∧
    raised (get_manifest_file "") = true ∧
    raised (upload_manifest_request {} "") = true ∧
    raised (rescan_manifest "") = true ∧
    raised (delete_manifest "") = true ∧
    raised (get_report_tokens "") = true ∧
    raised (get_latest_report "") = true ∧
    raised (set_custom_score "" "p" "c" "s") = true ∧
    raised (set_custom_score "m" "" "c" "s") = true ∧
    raised (set_custom_score "m" "p" "" "s") = true ∧
    raised (set_custom_score "m" "p" "c" "") = true ∧
    raised (bulk_move_manifests ["t"]) = true ∧
    raised (bulk_move_manifests ["t"] (some "") (some "")) = true ∧
    raised (bulk_copy_manifests ["t"]) = true ∧
    raised (download_report "") = true ∧
    raised (download_report "t") = true ∧
    raised (compare_reports "" "x") = true ∧
    raised (compare_reports "x" "") = true ∧
    raised (bulk_archive_groups []) = false ∧
    raised (bulk_unarchive_groups []) = false ∧
    raised (create_folder {} "") = false ∧
    raised (bulk_move_manifests [] (some "G")) = false ∧
    raised (bulk_copy_manifests [] (some "G")) = false := by
  decide

/-- Claim C2: in `upload_manifest`, the literal ecosystems token "all" (any
letter case) forwards the full static allow-list comma-joined in declared
order; any other string is split on commas, each entry trimmed, entries not
on the allow-list dropped with one warning, and the remaining entries
forwarded comma-joined; in particular "Debian:9, bogus" forwards exactly
"Debian:9" with a single warning. -/
theorem C2_spec :
    (∀ s, pyLower s = "all" →
      (reqData (upload_manifest_request { group_token := some "G" } "m" none none none
          none false none false (some s) none none none none)).lookup "ecosystems"
        = some (.str (pyJoin "," ALL_ECOSYSTEMS)))
    ∧ (∀ s, ¬ pyLower s = "all" →
        (reqData (upload_manifest_request { group_token := some "G" } "m" none none
            none none false none false (some s) none none none none)).lookup
            "ecosystems"
          = some (.str (pyJoin "," (((pySplitChar ',' s).map pyStrip).filter
              (fun e => ALL_ECOSYSTEMS.contains e))))
        ∧ reqWarnings (upload_manifest_request { group_token := some "G" } "m" none
            none none none false none false (some s) none none none none)
          = (if (((pySplitChar ',' s).map pyStrip).filter
                (fun e => !ALL_ECOSYSTEMS.contains e)).isEmpty then []
             else [.invalidEcosystems (((pySplitChar ',' s).map pyStrip).filter
                (fun e => !ALL_ECOSYSTEMS.contains e)).dedup]))
    ∧ ((reqData (upload_manifest_request { group_token := some "G" } "m" none none
          none none false none false (some "Debian:9, bogus") none none none
          none)).lookup "ecosystems" = some (.str "Debian:9")
       ∧ reqWarnings (upload_manifest_request { group_token := some "G" } "m" none
          none none none false none false (some "Debian:9, bogus") none none none
          none) = [.invalidEcosystems ["bogus"]]) := by
  have hG : ("G" : String).isEmpty = false := rfl
  refine ⟨?_, ?_, ?_, ?_⟩
  · intro s h
    simp [upload_manifest_request, ecosystemsField, h, optTruthy, optGet, reqData, hG]
    rfl
  · intro s h
    constructor
    · simp [upload_manifest_request, ecosystemsField, h, optTruthy, optGet, hG,
            reqData]
      have key := kept_eq_valid ((pySplitChar ',' s).map pyStrip)
      simp at key
      rw [key]
      rfl
    · simp [upload_manifest_request, ecosystemsField, h, optTruthy, optGet, hG,
            reqWarnings]
  · decide
  · decide

/-- Claim C2, witness: the theorem applied at the concrete inputs "All"
(case-insensitive "all") and "Debian:9, bogus". -/
theorem C2_witness :
    (reqData (upload_manifest_request { group_token := some "G" } "m" none none none
        none false none false (some "All") none none none none)).lookup "ecosystems"
      = some (.str (pyJoin "," ALL_ECOSYSTEMS))
    ∧ (reqData (upload_manifest_request { group_token := some "G" } "m" none none
        none none false none false (some "Debian:9, bogus") none none none
        none)).lookup "ecosystems"
      = some (.str (pyJoin "," (((pySplitChar ',' "Debian:9, bogus").map
          pyStrip).filter (fun e => ALL_ECOSYSTEMS.contains e)))) :=
  ⟨C2_spec.1 "All" (by decide),
   (C2_spec.2.1 "Debian:9, bogus" (by decide)).1⟩

/-- Claim C3, counterexample: the claim says that with no group token
configured, a subfolder-name or folder-token argument is "ignored (not
included in the request)".  It is false: with no group token and a
configured folder token "FT" plus subfolder name "sub", `upload_manifest`
still places both `folder_token` and `subfolder_name` in the request data
(the warning only announces that the server will ignore them). -/
theorem C3_counterexample :
    (reqData (upload_manifest_request { folder_token := some "FT" } "m" none none
        none (some "sub"))).lookup "folder_token" = some (.str "FT")
    ∧ (reqData (upload_manifest_request { folder_token := some "FT" } "m" none none
        none (some "sub"))).lookup "subfolder_name" = some (.str "sub") := by
  constructor <;> rfl

/-- Claim C3, amended: when both a folder token and a group token are
configured, both are forwarded in the request (the folder token is the
preferred upload target per the API contract) and no warning is emitted;
when neither is configured, no token field is forwarded, the request
targets the server-side default "Private Workspace" (warning emitted), and
a subfolder-name argument is still included in the request — a second
warning merely says the server will ignore it. -/
theorem C3_spec (g f sub : String) (hg : g ≠ "") (hf : f ≠ "") (hsub : sub ≠ "") :
    (reqData (upload_manifest_request { group_token := some g, folder_token := some f }
        "m")).lookup "folder_token" = some (.str f)
    ∧ (reqData (upload_manifest_request { group_token := some g, folder_token := some f }
        "m")).lookup "group_token" = some (.str g)
    ∧ reqWarnings (upload_manifest_request { group_token := some g, folder_token := some f }
        "m") = []
    ∧ (reqData (upload_manifest_request {} "m" none none none (some sub))).lookup
        "folder_token" = none
    ∧ (reqData (upload_manifest_request {} "m" none none none (some sub))).lookup
        "group_token" = none
    ∧ (reqData (upload_manifest_request {} "m" none none none (some sub))).lookup
        "subfolder_name" = some (.str sub)
    ∧ reqWarnings (upload_manifest_request {} "m" none none none (some sub))
      = [.privateWorkspaceDefault, .foldersIgnored] := by
  have hgE : g.isEmpty = false := by
    cases hemp : g.isEmpty
    · rfl
    · exact absurd ((String.isEmpty_iff g).mp hemp) hg
  have hfE : f.isEmpty = false := by
    cases hemp : f.isEmpty
    · rfl
    · exact absurd ((String.isEmpty_iff f).mp hemp) hf
  have hsE : sub.isEmpty = false := by
    cases hemp : sub.isEmpty
    · rfl
    · exact absurd ((String.isEmpty_iff sub).mp hemp) hsub
  refine ⟨?_, ?_, ?_, ?_, ?_, ?_, ?_⟩ <;>
    simp [upload_manifest_request, optTruthy, optGet, hgE, hfE, hsE, reqData,
          reqWarnings] <;> rfl

/-- Claim C3, witness: the amended theorem applied at tokens "G", "F" and
subfolder name "S". -/
theorem C3_witness :
    (reqData (upload_manifest_request { group_token := some "G", folder_token := some "F" }
        "m")).lookup "folder_token" = some (.str "F")
    ∧ reqWarnings (upload_manifest_request {} "m" none none none (some "S"))
      = [.privateWorkspaceDefault, .foldersIgnored] :=
  ⟨(C3_spec "G" "F" "S" (by decide) (by decide) (by decide)).1,
   (C3_spec "G" "F" "S" (by decide) (by decide) (by decide)).2.2.2.2.2.2⟩

/-- Claim C4: when the server response contains truthy export data, the file
extension is derived from the export format (`pdf*` becomes "pdf",
`cyclonedx*` uses the cyclonedx sub-format), the export path's extension is
replaced by it, and the save outcome is only logged: the popped upload
result is returned successfully whether the save succeeds or fails. -/
theorem C4_spec (fmt cfmt p : String) (saveAt : String → Except String Unit)
    (r : JObj) (v : JVal) (rest : JObj)
    (hpop : popKey r "exported_report" = some (v, rest)) (hv : jTruthy v = true) :
    upload_manifest_result (some fmt) (some cfmt) (some p) saveAt r =
      let ext := if pyStartswith fmt "pdf" then "pdf"
                 else if pyStartswith fmt "cyclonedx" then cfmt else fmt
      let path := (pySplitext p).1 ++ "." ++ ext
      .ok (rest, [match saveAt path with
                  | .ok _ => .exportSaved path
                  | .error e => .exportSaveError e]) := by
  simp only [upload_manifest_result, hpop, hv, pyStrOfOpt]
  have hext : (if pyStartswith fmt "pdf" then pyTake fmt 3
               else if pyStartswith fmt "cyclonedx" then cfmt else fmt)
            = (if pyStartswith fmt "pdf" then "pdf"
               else if pyStartswith fmt "cyclonedx" then cfmt else fmt) := by
    by_cases h1 : pyStartswith fmt "pdf"
    · have htake : pyTake fmt 3 = "pdf" := by
        have := take_of_isPrefixOf "pdf".toList fmt.toList h1
        simpa [pyTake] using congrArg String.mk this
      simp [h1, htake]
    · simp [h1]
  rw [hext]
  cases hsave : saveAt ((pySplitext p).1 ++ "." ++
      (if pyStartswith fmt "pdf" then "pdf"
       else if pyStartswith fmt "cyclonedx" then cfmt else fmt)) <;> simp [hsave]

/-- Claim C4, witness: a "pdfsummary" export to "/tmp/report.xlsx" whose
save fails with "disk full" still returns the upload result, with the
failure logged and the target path rewritten to "/tmp/report.pdf". -/
theorem C4_witness :
    upload_manifest_result (some "pdfsummary") (some "json") (some "/tmp/report.xlsx")
        (fun _ => .error "disk full") [("a", .num 1), ("exported_report", .str "H4sI")]
      = .ok ([("a", .num 1)], [.exportSaveError "disk full"]) :=
  C4_spec "pdfsummary" "json" "/tmp/report.xlsx" (fun _ => .error "disk full")
    [("a", .num 1), ("exported_report", .str "H4sI")] (.str "H4sI") [("a", .num 1)]
    rfl rfl

/-- Claim C5: `set_status` with scope "group", no (or an empty) explicit
group-token list, and a configured default group token forwards
`group_tokens` as the single-element list holding that default token. -/
theorem C5_spec (cve pkg st g : String) (hc : cve ≠ "") (hp : pkg ≠ "")
    (hs : st ≠ "") (hg : g ≠ "") (gt : Option (List String))
    (hgt : listTruthy gt = false) :
    (set_status { group_token := some g } "group" cve pkg st none none none none
        gt).map (fun r => r.data.lookup "group_tokens")
      = .ok (some (.strList [g])) := by
  have hgE : g.isEmpty = false := by
    cases hemp : g.isEmpty
    · rfl
    · exact absurd ((String.isEmpty_iff g).mp hemp) hg
  rcases gt with _ | l
  · simp [set_status, hc, hp, hs, optTruthy, optGet, listTruthy, hgE]
    rfl
  · have hl : l = [] := by
      simpa [listTruthy, List.isEmpty_iff] using hgt
    subst hl
    simp [set_status, hc, hp, hs, optTruthy, optGet, listTruthy, hgE]
    rfl

/-- Claim C5, witness: the theorem applied with default token "G1" and
`group_tokens=None`. -/
theorem C5_witness :
    (set_status { group_token := some "G1" } "group" "CVE-2024-1" "openssl" "fixed"
        none none none none none).map (fun r => r.data.lookup "group_tokens")
      = .ok (some (.strList ["G1"])) :=
  C5_spec "CVE-2024-1" "openssl" "fixed" "G1" (by decide) (by decide) (by decide)
    (by decide) none rfl

/-- Claim C6: `bulk_move_manifests` and `bulk_copy_manifests` raise before
constructing any request when neither target token is truthy; on every
input the copy call equals the move call with only the `copy` request field
rewritten from `false` to `true`, both posting to the same resource path. -/
theorem C6_spec (sb : List String) (tg tf : Option String) (ih : Bool) :
    ((optTruthy tg || optTruthy tf) = false →
      bulk_move_manifests sb tg tf ih
        = .error "Please specify either a target group or target folder token"
      ∧ bulk_copy_manifests sb tg tf ih
        = .error "Please specify either a target group or target folder token")
    ∧ bulk_copy_manifests sb tg tf ih = (bulk_move_manifests sb tg tf ih).map
        (fun r => { r with data := r.data.map setCopyTrue })
    ∧ ((optTruthy tg || optTruthy tf) = true →
      (bulk_move_manifests sb tg tf ih).map (fun r => (r.resource, r.data.lookup "copy"))
        = .ok ("/api/v1/vigiles/manifests/bulk-options/move", some (.bool false))
      ∧ (bulk_copy_manifests sb tg tf ih).map (fun r => (r.resource, r.data.lookup "copy"))
        = .ok ("/api/v1/vigiles/manifests/bulk-options/move", some (.bool true))) := by
  cases htg : optTruthy tg <;> cases htf : optTruthy tf <;>
    refine ⟨?_, ?_, ?_⟩ <;>
      simp [bulk_move_manifests, bulk_copy_manifests, htg, htf] <;>
        first
        | rfl
        | (constructor <;> rfl)

/-- Claim C6, witness: the theorem applied with a group-token target. -/
theorem C6_witness :
    bulk_copy_manifests ["s1", "s2"] (some "TG") none true
      = (bulk_move_manifests ["s1", "s2"] (some "TG") none true).map
          (fun r => { r with data := r.data.map setCopyTrue })
    ∧ (bulk_move_manifests ["s1", "s2"] (some "TG") none true).map
        (fun r => (r.resource, r.data.lookup "copy"))
      = .ok ("/api/v1/vigiles/manifests/bulk-options/move", some (.bool false)) :=
  ⟨(C6_spec ["s1", "s2"] (some "TG") none true).2.1,
   ((C6_spec ["s1", "s2"] (some "TG") none true).2.2 (by decide)).1⟩

/-- Claim C7: `compare_reports` raises when either report token is falsy,
and otherwise always forwards both the deprecated `remove_whitelist` flag
and its replacement `remove_not_affected` unchanged in the request. -/
theorem C7_spec (t1 t2 : String) (rw rna fr : Bool) :
    (t1 = "" ∨ t2 = "" → raised (compare_reports t1 t2 rw rna fr) = true)
    ∧ (t1 ≠ "" → t2 ≠ "" →
      (compare_reports t1 t2 rw rna fr).map
          (fun r => (r.data.lookup "remove_whitelist",
                     r.data.lookup "remove_not_affected"))
        = .ok (some (.bool rw), some (.bool rna))) := by
  constructor
  · intro h
    rcases h with h | h <;> simp [compare_reports, h, raised]
  · intro h1 h2
    simp [compare_reports, h1, h2]
    rfl

/-- Claim C7, witness: the theorem applied at tokens "r1", "r2" with
`remove_whitelist=True` and `remove_not_affected=False`. -/
theorem C7_witness :
    (compare_reports "r1" "r2" true false false).map
        (fun r => (r.data.lookup "remove_whitelist",
                   r.data.lookup "remove_not_affected"))
      = .ok (some (.bool true), some (.bool false)) :=
  (C7_spec "r1" "r2" true false false).2 (by decide) (by decide)

/-- Claim C8: for every byte string, gzip-compressing it, base64-encoding
the compressed bytes, and passing the result to `save_file` writes exactly
the original bytes to the destination path, overwriting any existing file
(the file-system lookup after the save returns the original bytes whatever
was stored before).  The external gzip collaborator enters as a
compressor-decompressor pair inverse at the encoded input. -/
theorem C8_spec (gz gunzip : List Nat → List Nat) (bytes : List Nat)
    (hinv : gunzip (gz bytes) = bytes) (hbytes : ∀ y ∈ gz bytes, y < 256)
    (fs : FileSys) (path : String) :
    (save_file gunzip (b64encode (gz bytes)) path fs).lookup path = some bytes := by
  simp only [save_file, writeFile]
  rw [b64_roundtrip (gz bytes) hbytes, hinv]
  simp [List.lookup]

/-- Claim C8, witness: the theorem applied with the identity codec to bytes
`[7, 255, 0]`, overwriting an existing file at "r.pdf". -/
theorem C8_witness :
    (save_file (fun b => b) (b64encode [7, 255, 0]) "r.pdf"
        [("r.pdf", [1])]).lookup "r.pdf" = some [7, 255, 0] :=
  C8_spec (fun b => b) (fun b => b) [7, 255, 0] rfl (by decide)
    [("r.pdf", [1])] "r.pdf"

/-- Claim C9: for the mocked upload response with counts
`{"unfixed": 3, "fixed": 1, "kernel": {"unfixed": 1}}` and report path
"/reports/r1", the CLI summary prints "Unfixed: 3 (2 User space, 1 Kernel)"
and "Fixed: 1 (1 User space, 0 Kernel)", and the overview prints the report
URL joined from the client's base URL and the relative report path. -/
theorem C9_spec (base : String) :
    print_summary scanResponse =
      ["\n\tUnfixed: 3 (2 User space, 1 Kernel)",
       "\tFixed: 1 (1 User space, 0 Kernel)",
       "\tHigh/Critical CVSS (Unfixed): 0 (0 User space, 0 Kernel)"]
    ∧ print_report_overview { url := base } scanResponse =
      ["\n-- Vigiles Vulnerability Report --",
       "\n\tView detailed online report at:\n\t  " ++ pyUrljoin base "/reports/r1"] := by
  constructor
  · rfl
  · rfl

/-- Claim C10, counterexample: the claim says `upload_manifest` returns the
response with `exported_report` removed for every response mapping, raising
`KeyError` only when the key is absent.  It is false when the export value
is truthy but no export format was requested: the call raises an
`AttributeError` (from `None.startswith`) instead of returning. -/
theorem C10_counterexample :
    upload_manifest_result none none none (fun _ => .ok ())
        [("exported_report", .str "x")]
      = .error "AttributeError: NoneType object has no attribute startswith" := rfl

/-- Claim C10, amended: with an export format and path supplied, the value
returned by `upload_manifest` is the server response with the
`exported_report` key removed and every other key-value pair unchanged,
whatever the save outcome; when the response lacks the key entirely the
call raises a `KeyError` even though the upload succeeded. -/
theorem C10_spec (r : JObj) (fmt cfmt p : String)
    (saveAt : String → Except String Unit) :
    ((r.lookup "exported_report").isSome = false →
      upload_manifest_result (some fmt) (some cfmt) (some p) saveAt r
        = .error "KeyError: exported_report")
    ∧ ((r.lookup "exported_report").isSome = true →
      (upload_manifest_result (some fmt) (some cfmt) (some p) saveAt r).map Prod.fst
        = .ok (r.filter (fun q => q.1 != "exported_report"))) := by
  constructor
  · intro h
    cases hl : r.lookup "exported_report" with
    | none => simp [upload_manifest_result, popKey, hl]
    | some v => rw [hl] at h; simp at h
  · intro h
    cases hl : r.lookup "exported_report" with
    | none => rw [hl] at h; simp at h
    | some v =>
      simp only [upload_manifest_result, popKey, hl]
      cases hv : jTruthy v
      · simp [Except.map]
      · simp only [if_true]
        cases hsave : saveAt ((pySplitext p).1 ++ "." ++
            (if pyStartswith fmt "pdf" then pyTake fmt 3
             else if pyStartswith fmt "cyclonedx" then pyStrOfOpt (some cfmt)
             else fmt)) <;> simp [hsave, Except.map]

/-- Claim C10, witness: the amended theorem applied to a response without
the `exported_report` key (KeyError) and to one with it (frame-preserving
return). -/
theorem C10_witness :
    upload_manifest_result (some "pdf") (some "json") (some "/tmp/r.csv")
        (fun _ => .ok ()) [("x", .num 2)]
      = .error "KeyError: exported_report"
    ∧ (upload_manifest_result (some "pdf") (some "json") (some "/tmp/r.csv")
        (fun _ => .ok ()) [("x", .num 2), ("exported_report", .str "zz")]).map Prod.fst
      = .ok [("x", .num 2)] :=
  ⟨(C10_spec [("x", .num 2)] "pdf" "json" "/tmp/r.csv" (fun _ => .ok ())).1 rfl,
   (C10_spec [("x", .num 2), ("exported_report", .str "zz")] "pdf" "json"
      "/tmp/r.csv" (fun _ => .ok ())).2 rfl⟩
